import Mathlib

/-!
Shallow embedding of the GitHub-API utility scripts of scivision/gitedu:
the rate-limit guard `check_api_limit` (two variants, in
`src/gitbulk/base.py` and `src/pygithubutils/base.py`), the emptiness
probe `repo_isempty`, and the GraphQL wrapper `run_query` of
`CountStars.py`.  Pure Python functions become Lean functions; the
surrounding I/O (the GitHub session, `logging`, `requests`) is made
explicit: a call's log output is returned as a list of log events, a
raised exception becomes the `.error` branch of an `Except`.
-/

/-- Log levels of Python's `logging` module that the embedded code uses. -/
inductive LogLevel where
  | debug
  | info
  | warning
  | error
deriving DecidableEq, Repr

/-- One emitted log record: its level and its rendered message. -/
structure LogEvent where
  level : LogLevel
  msg : String
deriving DecidableEq, Repr

/-- The rate-limit snapshot the guard reads from the GitHub session:
`g.rate_limiting = (remaining, limit)` and `g.rate_limiting_resettime`
(Unix epoch seconds). -/
structure Quota where
  remaining : Nat
  maximum : Nat
  resetTime : Nat
deriving DecidableEq, Repr

/-- `s` contains `pat` as a contiguous substring. -/
def strContains (s pat : String) : Prop :=
  ∃ a b : String, s = a ++ pat ++ b

/-- Zero-pad a numeral to two digits, as `datetime`'s `str()` does for
month, day, hour, minute and second fields. -/
def pad2 (n : Nat) : String :=
  if n < 10 then "0" ++ toString n else toString n

/-- Civil date (year, month, day) from a count of days since 1970-01-01,
the standard era-based conversion used by calendar libraries. -/
def civilFromDays (days : Nat) : Nat × Nat × Nat :=
  let z := days + 719468
  let era := z / 146097
  let doe := z % 146097
  let yoe := (doe - doe / 1460 + doe / 36524 - doe / 146096) / 365
  let y := yoe + era * 400
  let doy := doe - (365 * yoe + yoe / 4 - yoe / 100)
  let mp := (5 * doy + 2) / 153
  let d := doy - (153 * mp + 2) / 5 + 1
  let m := if mp < 10 then mp + 3 else mp - 9
  (if m ≤ 2 then y + 1 else y, m, d)

/-- `datetime.utcfromtimestamp(t)` rendered by `str()` inside the
f-strings: `YYYY-MM-DD HH:MM:SS` in UTC. -/
def utcfromtimestamp (t : Nat) : String :=
  let days := t / 86400
  let rem := t % 86400
  let ymd := civilFromDays days
  toString ymd.1 ++ "-" ++ pad2 ymd.2.1 ++ "-" ++ pad2 ymd.2.2 ++ " " ++
    pad2 (rem / 3600) ++ ":" ++ pad2 (rem % 3600 / 60) ++ ":" ++ pad2 (rem % 60)

namespace gitbulk

/-- First statement of `check_api_limit` (src/gitbulk/base.py): raise
`ConnectionRefusedError` when the remaining quota is exactly zero. -/
def exhaustion_check (q : Quota) : Except String Unit :=
  if q.remaining = 0 then
    Except.error ("GitHub rate limit exceeded: " ++ toString q.remaining ++ " / "
      ++ toString q.maximum ++ ". Try again after " ++ utcfromtimestamp q.resetTime ++ " UTC.")
  else
    Except.ok ()

/-- Second statement of `check_api_limit` (src/gitbulk/base.py): the
low-quota branch ("it's not elif") — a warning below 10 remaining,
otherwise an info-level log.  `logging.warning(ResourceWarning(m))`
records `str(ResourceWarning(m)) = m`. -/
def low_quota_logs (q : Quota) : List LogEvent :=
  if q.remaining < 10 then
    [⟨LogLevel.warning, "approaching GitHub API limit, " ++ toString q.remaining ++ " / "
      ++ toString q.maximum ++ " remaining until " ++ utcfromtimestamp q.resetTime ++ " UTC."⟩]
  else
    [⟨LogLevel.info, "GitHub API limit: " ++ toString q.remaining ++ " / "
      ++ toString q.maximum ++ " remaining until " ++ utcfromtimestamp q.resetTime ++ " UTC."⟩]

/-- `check_api_limit` of src/gitbulk/base.py on the snapshot it read from
the session: the exhaustion check runs first and may raise; the log
branch runs whenever it did not.  Returns `None` in Python, so `ok`
carries only the emitted log events. -/
def check_api_limit (q : Quota) : Except String (List LogEvent) := do
  exhaustion_check q
  pure (low_quota_logs q)

/-- One call of the guard as a state transformer over the snapshot: the
function only reads `g.rate_limiting` / `g.rate_limiting_resettime`
("No penalty for checking rate limits") and writes nothing back. -/
def check_api_limit_call (q : Quota) : Except String (List LogEvent) × Quota :=
  (check_api_limit q, q)

end gitbulk

namespace pygithubutils

/-- First statement of `check_api_limit` (src/pygithubutils/base.py):
identical exhaustion guard. -/
def exhaustion_check (q : Quota) : Except String Unit :=
  if q.remaining = 0 then
    Except.error ("GitHub rate limit exceeded: " ++ toString q.remaining ++ " / "
      ++ toString q.maximum ++ ". Try again after " ++ utcfromtimestamp q.resetTime ++ " UTC.")
  else
    Except.ok ()

/-- Second statement of `check_api_limit` (src/pygithubutils/base.py):
same warning branch, but the quiet branch logs at debug level. -/
def low_quota_logs (q : Quota) : List LogEvent :=
  if q.remaining < 10 then
    [⟨LogLevel.warning, "approaching GitHub API limit, " ++ toString q.remaining ++ " / "
      ++ toString q.maximum ++ " remaining until " ++ utcfromtimestamp q.resetTime ++ " UTC."⟩]
  else
    [⟨LogLevel.debug, "GitHub API limit: " ++ toString q.remaining ++ " / "
      ++ toString q.maximum ++ " remaining until " ++ utcfromtimestamp q.resetTime ++ " UTC."⟩]

/-- `check_api_limit` of src/pygithubutils/base.py: declared `-> bool`;
`ok = True` is set once, never reassigned, and returned at the end.  The
`ok` result is paired with the emitted log events. -/
def check_api_limit (q : Quota) : Except String (Bool × List LogEvent) := do
  let ok := true
  exhaustion_check q
  pure (ok, low_quota_logs q)

/-- One call of the pygithubutils guard as a state transformer over the
snapshot it read: it writes nothing back. -/
def check_api_limit_call (q : Quota) : Except String (Bool × List LogEvent) × Quota :=
  (check_api_limit q, q)

end pygithubutils

/-- The exception type PyGithub raises on API failures (`github.GithubException`):
only its rendered message matters here (`logging.info(str(e))`). -/
structure GithubException where
  msg : String
deriving DecidableEq, Repr

/-- A repository handle as `repo_isempty` uses it: its `name` attribute and
its `get_contents` method, which either returns contents or raises a
`GithubException` (permission errors and other API failures included). -/
structure Repo where
  name : String
  get_contents : String → Except GithubException Unit

/-- `repo_isempty` (identical in src/gitbulk/base.py and
src/pygithubutils/base.py): probes `get_contents("/")`; on success the repo
is not empty; on `GithubException` it logs an error and an info line and
reports the repo as empty.  The exception is consumed, never re-raised, so
the embedding is total: it returns the boolean together with the logs. -/
def repo_isempty (repo : Repo) : Bool × List LogEvent :=
  match repo.get_contents "/" with
  | Except.ok _ => (false, [])
  | Except.error e =>
      (true, [⟨LogLevel.error, repo.name ++ " is empty. \n"⟩, ⟨LogLevel.info, e.msg⟩])

/-- The response of `requests.post` as `run_query` (CountStars.py) consumes
it: the HTTP status code and the decoded JSON body that `request.json()`
would return. -/
structure Response where
  status_code : Nat
  body : String
deriving DecidableEq, Repr

/-- `run_query` of CountStars.py, parametrised by the response the POST to
the GraphQL endpoint produced: the body is returned exactly when the status
code is 200; any other status raises `ValueError` naming the code. -/
def run_query (request : Response) : Except String String :=
  if request.status_code = 200 then
    Except.ok request.body
  else
    Except.error ("Query failed with code " ++ toString request.status_code)

/-! ### Branch lemmas for the two guards -/

theorem gitbulk_check_spec_zero (q : Quota) (h : q.remaining = 0) :
    gitbulk.check_api_limit q =
      Except.error ("GitHub rate limit exceeded: " ++ toString q.remaining ++ " / "
        ++ toString q.maximum ++ ". Try again after " ++ utcfromtimestamp q.resetTime
        ++ " UTC.") := by
  unfold gitbulk.check_api_limit gitbulk.exhaustion_check
  simp [h]

theorem gitbulk_check_spec_pos (q : Quota) (h : q.remaining ≠ 0) :
    gitbulk.check_api_limit q = Except.ok (gitbulk.low_quota_logs q) := by
  unfold gitbulk.check_api_limit gitbulk.exhaustion_check
  simp [h]

theorem pygithubutils_check_spec_zero (q : Quota) (h : q.remaining = 0) :
    pygithubutils.check_api_limit q =
      Except.error ("GitHub rate limit exceeded: " ++ toString q.remaining ++ " / "
        ++ toString q.maximum ++ ". Try again after " ++ utcfromtimestamp q.resetTime
        ++ " UTC.") := by
  unfold pygithubutils.check_api_limit pygithubutils.exhaustion_check
  simp [h]

theorem pygithubutils_check_spec_pos (q : Quota) (h : q.remaining ≠ 0) :
    pygithubutils.check_api_limit q = Except.ok (true, pygithubutils.low_quota_logs q) := by
  unfold pygithubutils.check_api_limit pygithubutils.exhaustion_check
  simp [h]

/-- The warning message of either guard contains the remaining count, the
maximum and the rendered reset time. -/
theorem warn_msg_contains (r m t : String) :
    strContains ("approaching GitHub API limit, " ++ r ++ " / " ++ m
      ++ " remaining until " ++ t ++ " UTC.") r ∧
    strContains ("approaching GitHub API limit, " ++ r ++ " / " ++ m
      ++ " remaining until " ++ t ++ " UTC.") m ∧
    strContains ("approaching GitHub API limit, " ++ r ++ " / " ++ m
      ++ " remaining until " ++ t ++ " UTC.") t := by
  refine ⟨⟨"approaching GitHub API limit, ",
      " / " ++ m ++ " remaining until " ++ t ++ " UTC.", ?_⟩,
    ⟨"approaching GitHub API limit, " ++ r ++ " / ",
      " remaining until " ++ t ++ " UTC.", ?_⟩,
    ⟨"approaching GitHub API limit, " ++ r ++ " / " ++ m ++ " remaining until ",
      " UTC.", ?_⟩⟩ <;>
  simp [String.append_assoc]

/-! ### Claims -/

/-- C1: either variant of `check_api_limit` raises the quota-exhausted error
exactly when `remaining = 0`, regardless of `maximum` and `resetTime`; for
`remaining > 0` both return normally, and the error is the call's own
result, never caught inside the guard. -/
theorem check_api_limit_raises_iff_exhausted (q : Quota) :
    ((∃ e, gitbulk.check_api_limit q = Except.error e) ↔ q.remaining = 0) ∧
    ((∃ e, pygithubutils.check_api_limit q = Except.error e) ↔ q.remaining = 0) ∧
    (q.remaining ≠ 0 →
      (∃ logs, gitbulk.check_api_limit q = Except.ok logs) ∧
      ∃ r, pygithubutils.check_api_limit q = Except.ok r) := by
  by_cases h : q.remaining = 0
  · exact ⟨⟨fun _ => h, fun _ => ⟨_, gitbulk_check_spec_zero q h⟩⟩,
      ⟨fun _ => h, fun _ => ⟨_, pygithubutils_check_spec_zero q h⟩⟩,
      fun hne => absurd h hne⟩
  · refine ⟨?_, ?_, fun _ =>
      ⟨⟨_, gitbulk_check_spec_pos q h⟩, ⟨_, pygithubutils_check_spec_pos q h⟩⟩⟩
    · simp [gitbulk_check_spec_pos q h, h]
    · simp [pygithubutils_check_spec_pos q h, h]

/-- C1 witness: at `remaining = 5` neither variant raises; at `remaining = 0`
both do. -/
theorem check_api_limit_raises_iff_exhausted_witness :
    ((∃ e, gitbulk.check_api_limit ⟨5, 60, 7⟩ = Except.error e) ↔ (5 : Nat) = 0) ∧
    ((∃ logs, gitbulk.check_api_limit ⟨5, 60, 7⟩ = Except.ok logs) ∧
      ∃ r, pygithubutils.check_api_limit ⟨5, 60, 7⟩ = Except.ok r) ∧
    ((∃ e, gitbulk.check_api_limit ⟨0, 60, 7⟩ = Except.error e) ↔ (0 : Nat) = 0) :=
  ⟨(check_api_limit_raises_iff_exhausted ⟨5, 60, 7⟩).1,
   (check_api_limit_raises_iff_exhausted ⟨5, 60, 7⟩).2.2 (by decide),
   (check_api_limit_raises_iff_exhausted ⟨0, 60, 7⟩).1⟩

/-- C2: for `0 < remaining < 10` both variants return normally and emit
exactly one log event, at warning level, whose message contains the
remaining count, the maximum and the rendered reset time. -/
theorem check_api_limit_low_quota_warns (q : Quota)
    (h0 : 0 < q.remaining) (h10 : q.remaining < 10) :
    (∃ msg, gitbulk.check_api_limit q = Except.ok [⟨LogLevel.warning, msg⟩] ∧
      strContains msg (toString q.remaining) ∧ strContains msg (toString q.maximum) ∧
      strContains msg (utcfromtimestamp q.resetTime)) ∧
    ∃ msg, pygithubutils.check_api_limit q = Except.ok (true, [⟨LogLevel.warning, msg⟩]) ∧
      strContains msg (toString q.remaining) ∧ strContains msg (toString q.maximum) ∧
      strContains msg (utcfromtimestamp q.resetTime) := by
  have hne : q.remaining ≠ 0 := Nat.pos_iff_ne_zero.mp h0
  have hcont := warn_msg_contains (toString q.remaining) (toString q.maximum)
    (utcfromtimestamp q.resetTime)
  constructor
  · refine ⟨"approaching GitHub API limit, " ++ toString q.remaining ++ " / "
      ++ toString q.maximum ++ " remaining until " ++ utcfromtimestamp q.resetTime
      ++ " UTC.", ?_, hcont.1, hcont.2.1, hcont.2.2⟩
    rw [gitbulk_check_spec_pos q hne]
    unfold gitbulk.low_quota_logs
    rw [if_pos h10]
  · refine ⟨"approaching GitHub API limit, " ++ toString q.remaining ++ " / "
      ++ toString q.maximum ++ " remaining until " ++ utcfromtimestamp q.resetTime
      ++ " UTC.", ?_, hcont.1, hcont.2.1, hcont.2.2⟩
    rw [pygithubutils_check_spec_pos q hne]
    unfold pygithubutils.low_quota_logs
    rw [if_pos h10]

/-- C2 witness: the snapshot `(3, 5000, 0)` is low but not exhausted and
yields the single warning log in both variants. -/
theorem check_api_limit_low_quota_warns_witness :
    (∃ msg, gitbulk.check_api_limit ⟨3, 5000, 0⟩ = Except.ok [⟨LogLevel.warning, msg⟩] ∧
      strContains msg (toString (3 : Nat)) ∧ strContains msg (toString (5000 : Nat)) ∧
      strContains msg (utcfromtimestamp 0)) ∧
    ∃ msg, pygithubutils.check_api_limit ⟨3, 5000, 0⟩
        = Except.ok (true, [⟨LogLevel.warning, msg⟩]) ∧
      strContains msg (toString (3 : Nat)) ∧ strContains msg (toString (5000 : Nat)) ∧
      strContains msg (utcfromtimestamp 0) :=
  check_api_limit_low_quota_warns ⟨3, 5000, 0⟩ (by decide) (by decide)

/-- C3: for `remaining ≥ 10` both variants return normally and emit exactly
one log event — info level in gitbulk, debug level in pygithubutils — and
no warning. -/
theorem check_api_limit_high_quota_quiet (q : Quota) (h : 10 ≤ q.remaining) :
    (∃ msg, gitbulk.check_api_limit q = Except.ok [⟨LogLevel.info, msg⟩]) ∧
    ∃ msg, pygithubutils.check_api_limit q = Except.ok (true, [⟨LogLevel.debug, msg⟩]) := by
  have hne : q.remaining ≠ 0 := by omega
  have hnlt : ¬ q.remaining < 10 := by omega
  constructor
  · refine ⟨"GitHub API limit: " ++ toString q.remaining ++ " / " ++ toString q.maximum
      ++ " remaining until " ++ utcfromtimestamp q.resetTime ++ " UTC.", ?_⟩
    rw [gitbulk_check_spec_pos q hne]
    unfold gitbulk.low_quota_logs
    rw [if_neg hnlt]
  · refine ⟨"GitHub API limit: " ++ toString q.remaining ++ " / " ++ toString q.maximum
      ++ " remaining until " ++ utcfromtimestamp q.resetTime ++ " UTC.", ?_⟩
    rw [pygithubutils_check_spec_pos q hne]
    unfold pygithubutils.low_quota_logs
    rw [if_neg hnlt]

/-- C3 witness: the snapshot `(4999, 5000, 0)` yields the single info/debug
log. -/
theorem check_api_limit_high_quota_quiet_witness :
    (∃ msg, gitbulk.check_api_limit ⟨4999, 5000, 0⟩ = Except.ok [⟨LogLevel.info, msg⟩]) ∧
    ∃ msg, pygithubutils.check_api_limit ⟨4999, 5000, 0⟩
        = Except.ok (true, [⟨LogLevel.debug, msg⟩]) :=
  check_api_limit_high_quota_quiet ⟨4999, 5000, 0⟩ (by decide)

/-- C4: the exhaustion check comes first and is the only failing check:
when it triggers the call fails, and when it does not the call returns
normally with the logs of the low-quota branch, whose comparison
`remaining < 10` only selects the log level. -/
theorem check_api_limit_check_order (q : Quota) :
    (q.remaining = 0 →
      (∃ e, gitbulk.check_api_limit q = Except.error e) ∧
      ∃ e, pygithubutils.check_api_limit q = Except.error e) ∧
    (q.remaining ≠ 0 →
      gitbulk.check_api_limit q = Except.ok (gitbulk.low_quota_logs q) ∧
      pygithubutils.check_api_limit q = Except.ok (true, pygithubutils.low_quota_logs q) ∧
      (gitbulk.low_quota_logs q).map LogEvent.level =
        (if q.remaining < 10 then [LogLevel.warning] else [LogLevel.info]) ∧
      (pygithubutils.low_quota_logs q).map LogEvent.level =
        (if q.remaining < 10 then [LogLevel.warning] else [LogLevel.debug])) := by
  constructor
  · intro h
    exact ⟨⟨_, gitbulk_check_spec_zero q h⟩, ⟨_, pygithubutils_check_spec_zero q h⟩⟩
  · intro h
    refine ⟨gitbulk_check_spec_pos q h, pygithubutils_check_spec_pos q h, ?_, ?_⟩
    · unfold gitbulk.low_quota_logs
      split <;> rfl
    · unfold pygithubutils.low_quota_logs
      split <;> rfl

/-- C4 witness: both cases of the ordering law at concrete snapshots. -/
theorem check_api_limit_check_order_witness :
    ((∃ e, gitbulk.check_api_limit ⟨0, 60, 7⟩ = Except.error e) ∧
      ∃ e, pygithubutils.check_api_limit ⟨0, 60, 7⟩ = Except.error e) ∧
    (gitbulk.check_api_limit ⟨12, 60, 7⟩
        = Except.ok (gitbulk.low_quota_logs ⟨12, 60, 7⟩) ∧
      pygithubutils.check_api_limit ⟨12, 60, 7⟩
        = Except.ok (true, pygithubutils.low_quota_logs ⟨12, 60, 7⟩) ∧
      (gitbulk.low_quota_logs ⟨12, 60, 7⟩).map LogEvent.level =
        (if (12 : Nat) < 10 then [LogLevel.warning] else [LogLevel.info]) ∧
      (pygithubutils.low_quota_logs ⟨12, 60, 7⟩).map LogEvent.level =
        (if (12 : Nat) < 10 then [LogLevel.warning] else [LogLevel.debug])) :=
  ⟨(check_api_limit_check_order ⟨0, 60, 7⟩).1 rfl,
   (check_api_limit_check_order ⟨12, 60, 7⟩).2 (by decide)⟩

/-- C5: the guard is deterministic and idempotent over the snapshot: a call
leaves the snapshot unchanged, and a second call on the snapshot a first
call returned produces the same result, in both variants. -/
theorem check_api_limit_idempotent (q : Quota) :
    (gitbulk.check_api_limit_call q).2 = q ∧
    (pygithubutils.check_api_limit_call q).2 = q ∧
    (gitbulk.check_api_limit_call ((gitbulk.check_api_limit_call q).2)).1
      = (gitbulk.check_api_limit_call q).1 ∧
    (pygithubutils.check_api_limit_call ((pygithubutils.check_api_limit_call q).2)).1
      = (pygithubutils.check_api_limit_call q).1 :=
  ⟨rfl, rfl, rfl, rfl⟩

/-- The exhaustion message for `remaining = 0`, `maximum = 5000` contains
the ratio `0 / 5000` and the rendered reset time. -/
theorem exceeded_msg_contains (T : Nat) :
    strContains ("GitHub rate limit exceeded: " ++ toString (0 : Nat) ++ " / "
      ++ toString (5000 : Nat) ++ ". Try again after " ++ utcfromtimestamp T
      ++ " UTC.") "0 / 5000" ∧
    strContains ("GitHub rate limit exceeded: " ++ toString (0 : Nat) ++ " / "
      ++ toString (5000 : Nat) ++ ". Try again after " ++ utcfromtimestamp T
      ++ " UTC.") (utcfromtimestamp T) := by
  rw [show toString (0 : Nat) = "0" from rfl, show toString (5000 : Nat) = "5000" from rfl]
  constructor
  · refine ⟨"GitHub rate limit exceeded: ",
      ". Try again after " ++ utcfromtimestamp T ++ " UTC.", ?_⟩
    simp [String.append_assoc]
    rw [show ("GitHub rate limit exceeded: 0 / 5000. Try again after " : String)
        = "GitHub rate limit exceeded: 0 / 5000" ++ ". Try again after " by decide,
      String.append_assoc]
  · refine ⟨"GitHub rate limit exceeded: 0 / 5000. Try again after ", " UTC.", ?_⟩
    simp [String.append_assoc]

/-- C6: on the snapshot `(0, 5000, T)` both variants fail, and the error
message mentions the ratio `0 / 5000` and the reset time rendered as a UTC
timestamp. -/
theorem check_api_limit_exhausted_message (T : Nat) :
    (∃ e, gitbulk.check_api_limit ⟨0, 5000, T⟩ = Except.error e ∧
      strContains e "0 / 5000" ∧ strContains e (utcfromtimestamp T)) ∧
    ∃ e, pygithubutils.check_api_limit ⟨0, 5000, T⟩ = Except.error e ∧
      strContains e "0 / 5000" ∧ strContains e (utcfromtimestamp T) :=
  ⟨⟨_, gitbulk_check_spec_zero ⟨0, 5000, T⟩ rfl,
      (exceeded_msg_contains T).1, (exceeded_msg_contains T).2⟩,
   ⟨_, pygithubutils_check_spec_zero ⟨0, 5000, T⟩ rfl,
      (exceeded_msg_contains T).1, (exceeded_msg_contains T).2⟩⟩

/-- C7 counterexample: at `remaining = 4999 ≥ 10` the gitbulk guard does
not stay silent — it returns normally but emits one log event, so its
output is not empty. -/
theorem check_api_limit_quiet_emits_log :
    (gitbulk.check_api_limit ⟨4999, 5000, 0⟩).map List.length = Except.ok 1 ∧
    gitbulk.check_api_limit ⟨4999, 5000, 0⟩ ≠ Except.ok [] := by
  refine ⟨rfl, fun h => ?_⟩
  have h2 := congrArg (Except.map List.length) h
  rw [show Except.map List.length (gitbulk.check_api_limit ⟨4999, 5000, 0⟩)
      = Except.ok 1 from rfl] at h2
  simp [Except.map] at h2

/-- C7 (amended): when the quota is neither exhausted nor low
(`remaining ≥ 10`) the guard returns normally and emits no warning and no
failure: its only output is a single info-level (gitbulk) or debug-level
(pygithubutils) log line. -/
theorem check_api_limit_quiet_branch (q : Quota) (h : 10 ≤ q.remaining) :
    (∃ logs, gitbulk.check_api_limit q = Except.ok logs ∧ logs.length = 1 ∧
      logs.map LogEvent.level = [LogLevel.info]) ∧
    ∃ logs, pygithubutils.check_api_limit q = Except.ok (true, logs) ∧ logs.length = 1 ∧
      logs.map LogEvent.level = [LogLevel.debug] := by
  have hne : q.remaining ≠ 0 := by omega
  have hnlt : ¬ q.remaining < 10 := by omega
  constructor
  · refine ⟨gitbulk.low_quota_logs q, gitbulk_check_spec_pos q hne, ?_, ?_⟩ <;>
    · unfold gitbulk.low_quota_logs
      rw [if_neg hnlt]
      rfl
  · refine ⟨pygithubutils.low_quota_logs q, pygithubutils_check_spec_pos q hne, ?_, ?_⟩ <;>
    · unfold pygithubutils.low_quota_logs
      rw [if_neg hnlt]
      rfl

/-- C7 witness: the quiet branch at the snapshot `(100, 5000, 0)`. -/
theorem check_api_limit_quiet_branch_witness :
    (∃ logs, gitbulk.check_api_limit ⟨100, 5000, 0⟩ = Except.ok logs ∧ logs.length = 1 ∧
      logs.map LogEvent.level = [LogLevel.info]) ∧
    ∃ logs, pygithubutils.check_api_limit ⟨100, 5000, 0⟩ = Except.ok (true, logs) ∧
      logs.length = 1 ∧ logs.map LogEvent.level = [LogLevel.debug] :=
  check_api_limit_quiet_branch ⟨100, 5000, 0⟩ (by decide)

/-- C8: every normal return of the pygithubutils `check_api_limit` carries
the boolean `true`: `ok` is initialised to `True` and never reassigned, so
the result conveys nothing beyond a non-raising return. -/
theorem check_api_limit_bool_always_true (q : Quota) :
    ∀ r, pygithubutils.check_api_limit q = Except.ok r → r.1 = true := by
  intro r hr
  by_cases h : q.remaining = 0
  · rw [pygithubutils_check_spec_zero q h] at hr
    exact Except.noConfusion hr
  · rw [pygithubutils_check_spec_pos q h] at hr
    injection hr with h2
    rw [← h2]

/-- C8 witness: the concrete run at `(42, 100, 0)` returns `true`. -/
theorem check_api_limit_bool_always_true_witness :
    ((true, [⟨LogLevel.debug,
        "GitHub API limit: 42 / 100 remaining until 1970-01-01 00:00:00 UTC."⟩])
      : Bool × List LogEvent).1 = true :=
  check_api_limit_bool_always_true ⟨42, 100, 0⟩
    (true, [⟨LogLevel.debug,
      "GitHub API limit: 42 / 100 remaining until 1970-01-01 00:00:00 UTC."⟩]) rfl

/-- C9: `repo_isempty` answers `true` exactly when `get_contents("/")`
raised a `GithubException` — any such API failure is read as emptiness —
and `false` exactly when the call succeeded; the exception itself is
consumed, never re-raised. -/
theorem repo_isempty_iff_exception (repo : Repo) :
    ((repo_isempty repo).1 = true ↔ ∃ e, repo.get_contents "/" = Except.error e) ∧
    ((repo_isempty repo).1 = false ↔ ∃ u, repo.get_contents "/" = Except.ok u) := by
  cases h : repo.get_contents "/" <;> simp [repo_isempty, h]

/-- C10: `run_query` returns the decoded body exactly when the status code
is `200`; every other status code yields a `ValueError` whose message
contains that code. -/
theorem run_query_ok_iff_200 (resp : Response) :
    (run_query resp = Except.ok resp.body ↔ resp.status_code = 200) ∧
    (resp.status_code ≠ 200 →
      ∃ a b, run_query resp = Except.error (a ++ toString resp.status_code ++ b)) := by
  constructor
  · constructor
    · intro h
      by_contra hne
      rw [run_query, if_neg hne] at h
      exact Except.noConfusion h
    · intro h
      rw [run_query, if_pos h]
  · intro h
    refine ⟨"Query failed with code ", "", ?_⟩
    rw [run_query, if_neg h, String.append_empty]

/-- C10 witness: a `404` response (and even the `2xx` code `201`) raises
with the code in the message. -/
theorem run_query_ok_iff_200_witness :
    (∃ a b, run_query ⟨404, "ignored"⟩ = Except.error (a ++ toString (404 : Nat) ++ b)) ∧
    ∃ a b, run_query ⟨201, "ignored"⟩ = Except.error (a ++ toString (201 : Nat) ++ b) :=
  ⟨(run_query_ok_iff_200 ⟨404, "ignored"⟩).2 (by decide),
   (run_query_ok_iff_200 ⟨201, "ignored"⟩).2 (by decide)⟩
